import Mathlib

/-!
# Verification of `make_image.py` (ARM64 Linux kernel Image builder)

Shallow embedding of the single source file `src/make_image.py`.  The script
reads a flat binary, prepends the 64-byte ARM64 Linux boot-protocol header,
and writes the result.

Modelling choices:
* File contents are `List Nat` (byte values); a file system is a map from
  path to optional contents (`none` = no file at that path).
* `struct.pack` field packing is little-endian with exactly `n` bytes per
  field.  Python 3's `struct.pack` raises `struct.error` when a value does
  not fit the field's range; this is modelled by `Option` (`none` = raise).
* `make_arm64_image` is a state-passing function returning the uncaught
  Python exception (if any), the resulting file system, and the lines
  printed to standard output.
* The `if __name__ == '__main__'` block is `pyMain`, taking `sys.argv`
  (argument 0 is the program name, as in Python) and returning the process
  exit code, standard output, and resulting file system.  An uncaught
  exception makes the Python interpreter exit with code 1.
-/

/-- A file system: maps a path to the byte contents of the file there,
`none` when no file exists at that path. -/
def FileSys : Type := String → Option (List Nat)

/-- Create or overwrite the file at path `p` with `content`
(`open(p, 'wb')` followed by writes). -/
def fsWrite (fs : FileSys) (p : String) (content : List Nat) : FileSys :=
  fun q => if q = p then some content else fs q

/-- Little-endian byte encoding of `x` in exactly `n` bytes:
the first `n` base-256 digits of `x`, least significant first. -/
def leBytes : Nat → Nat → List Nat
  | 0, _ => []
  | n + 1, x => x % 256 :: leBytes n (x / 256)

/-- One unsigned little-endian field of `struct.pack`: `n` bytes wide.
Python 3 raises `struct.error` when the value is out of range for the
field, modelled by `none`. -/
def packLE (n x : Nat) : Option (List Nat) :=
  if x < 2 ^ (8 * n) then some (leBytes n x) else none

/-- `struct.pack('<IIQQQQQQI4x', code0, code1, text_offset, image_size,
flags, res2, res3, res4, magic)` from `make_image.py` line 33: two 4-byte
fields, six 8-byte fields, one 4-byte field, then four zero pad bytes. -/
def packHeader (code0 code1 text_offset image_size flags res2 res3 res4
    magic : Nat) : Option (List Nat) :=
  (packLE 4 code0).bind fun b0 =>
  (packLE 4 code1).bind fun b1 =>
  (packLE 8 text_offset).bind fun b2 =>
  (packLE 8 image_size).bind fun b3 =>
  (packLE 8 flags).bind fun b4 =>
  (packLE 8 res2).bind fun b5 =>
  (packLE 8 res3).bind fun b6 =>
  (packLE 8 res4).bind fun b7 =>
  (packLE 4 magic).map fun b8 =>
  b0 ++ b1 ++ b2 ++ b3 ++ b4 ++ b5 ++ b6 ++ b7 ++ b8 ++ [0, 0, 0, 0]

/-- The outcome of running `make_arm64_image`: the uncaught Python
exception if one was raised (`none` on success), the file system after the
run, and the lines printed to standard output. -/
structure RunResult where
  err : Option String
  fs : FileSys
  stdout : List String

/-- `make_arm64_image(input_bin, output_image, load_offset)` from
`make_image.py` lines 11-54.  Python's default for `load_offset` is `0x0`;
the default is applied explicitly at the call site in `pyMain`. -/
def make_arm64_image (fs : FileSys) (input_bin output_image : String)
    (load_offset : Nat) : RunResult :=
  match fs input_bin with
  | none => ⟨some "FileNotFoundError", fs, []⟩
  | some kernel_data =>
    let kernel_size := kernel_data.length
    -- code0: branch to kernel start (skip header) - "b #0x40" = 0x14000010
    let code0 := 0x14000010
    let code1 := 0x00000000
    let text_offset := load_offset
    let image_size := kernel_size + 64  -- include header size
    let flags := 0x0
    let res2 := 0
    let res3 := 0
    let res4 := 0
    let magic := 0x644d5241
    -- res5 = 0 in the source is never packed: the trailing '4x' of the
    -- format string consumes no argument.
    match packHeader code0 code1 text_offset image_size flags res2 res3
        res4 magic with
    | none => ⟨some "struct.error", fs, []⟩
    | some header =>
      if header.length = 64 then
        let out := header ++ kernel_data
        let fs2 := fsWrite fs output_image out
        let offHex := String.mk (Nat.toDigits 16 text_offset)
        ⟨none, fs2,
          ["Created ARM64 Image: " ++ output_image,
           "  Header size: 64 bytes",
           "  Kernel size: " ++ toString kernel_size ++ " bytes",
           "  Total size: " ++ toString out.length ++ " bytes",
           "  Load offset: 0x" ++ offHex]⟩
      else
        -- assert len(header) == 64
        ⟨some "AssertionError", fs, []⟩

/-- The outcome of a whole process run: exit code, standard output, and
resulting file system. -/
structure ProcResult where
  exitCode : Nat
  stdout : List String
  fs : FileSys

/-- `sys.argv[n]`, defaulting to the empty string (the model never relies
on the default at an index the source actually reads). -/
def argD : List String → Nat → String
  | [], _ => ""
  | a :: _, 0 => a
  | _ :: rest, n + 1 => argD rest n

/-- The `if __name__ == '__main__'` block, `make_image.py` lines 56-61:
with fewer than three `sys.argv` entries print the usage line and exit 1;
otherwise call `make_arm64_image(sys.argv[1], sys.argv[2])` with the
default `load_offset = 0`.  An uncaught exception exits with code 1. -/
def pyMain (argv : List String) (fs : FileSys) : ProcResult :=
  if argv.length < 3 then
    ⟨1, ["Usage: " ++ argD argv 0 ++ " <input.bin> <output.Image>"], fs⟩
  else
    let r := make_arm64_image fs (argD argv 1) (argD argv 2) 0
    ⟨if (r.err).isSome then 1 else 0, r.stdout, r.fs⟩

/-- Value of a byte list read as an unsigned little-endian integer. -/
def readLE (bytes : List Nat) : Nat :=
  bytes.foldr (fun b acc => b + 256 * acc) 0

/-- Decode the unsigned little-endian field of `len` bytes at byte offset
`off` of `l`. -/
def decodeField (l : List Nat) (off len : Nat) : Nat :=
  readLE ((l.drop off).take len)

/-- The 64 header bytes produced for a given `text_offset` and
`image_size` (all other fields are the constants from the source). -/
def headerBytes (text_offset image_size : Nat) : List Nat :=
  leBytes 4 0x14000010 ++ leBytes 4 0 ++ leBytes 8 text_offset ++
  leBytes 8 image_size ++ leBytes 8 0 ++ leBytes 8 0 ++ leBytes 8 0 ++
  leBytes 8 0 ++ leBytes 4 0x644d5241 ++ [0, 0, 0, 0]

theorem leBytes_length (n x : Nat) : (leBytes n x).length = n := by
  induction n generalizing x with
  | zero => rfl
  | succ n ih => simp [leBytes, ih]

theorem readLE_leBytes (n x : Nat) (h : x < 2 ^ (8 * n)) :
    readLE (leBytes n x) = x := by
  induction n generalizing x with
  | zero =>
    simp only [Nat.mul_zero, pow_zero, Nat.lt_one_iff] at h
    simp [leBytes, readLE, h]
  | succ n ih =>
    have hx : x / 256 < 2 ^ (8 * n) := by
      have h' : x < 2 ^ (8 * n) * 256 := by
        have : 8 * (n + 1) = 8 * n + 8 := by ring
        rw [this, pow_add] at h
        norm_num at h
        exact h
      omega
    have hr := ih (x / 256) hx
    simp only [leBytes, readLE, List.foldr_cons] at hr ⊢
    rw [hr]
    omega

theorem headerBytes_length (text_offset image_size : Nat) :
    (headerBytes text_offset image_size).length = 64 := by
  simp [headerBytes, leBytes_length]

theorem packLE_length (n x : Nat) (b : List Nat) (h : packLE n x = some b) :
    b.length = n := by
  unfold packLE at h
  split at h
  · cases h
    exact leBytes_length n x
  · cases h

theorem packHeader_length (code0 code1 text_offset image_size flags res2
    res3 res4 magic : Nat) (hdr : List Nat)
    (h : packHeader code0 code1 text_offset image_size flags res2 res3
      res4 magic = some hdr) : hdr.length = 64 := by
  unfold packHeader at h
  rcases Option.bind_eq_some.mp h with ⟨b0, h0, h⟩
  rcases Option.bind_eq_some.mp h with ⟨b1, h1, h⟩
  rcases Option.bind_eq_some.mp h with ⟨b2, h2, h⟩
  rcases Option.bind_eq_some.mp h with ⟨b3, h3, h⟩
  rcases Option.bind_eq_some.mp h with ⟨b4, h4, h⟩
  rcases Option.bind_eq_some.mp h with ⟨b5, h5, h⟩
  rcases Option.bind_eq_some.mp h with ⟨b6, h6, h⟩
  rcases Option.bind_eq_some.mp h with ⟨b7, h7, h⟩
  rcases Option.map_eq_some'.mp h with ⟨b8, h8, rfl⟩
  simp [List.length_append, packLE_length _ _ _ h0, packLE_length _ _ _ h1,
    packLE_length _ _ _ h2, packLE_length _ _ _ h3, packLE_length _ _ _ h4,
    packLE_length _ _ _ h5, packLE_length _ _ _ h6, packLE_length _ _ _ h7,
    packLE_length _ _ _ h8]

theorem packHeader_eq (text_offset image_size : Nat)
    (ht : text_offset < 2 ^ 64) (hs : image_size < 2 ^ 64) :
    packHeader 0x14000010 0 text_offset image_size 0 0 0 0 0x644d5241 =
      some (headerBytes text_offset image_size) := by
  have h64 : (2 : Nat) ^ 64 = 18446744073709551616 := by norm_num
  rw [h64] at ht hs
  simp [packHeader, packLE, ht, hs, headerBytes]

theorem make_arm64_image_success (fs : FileSys)
    (input_bin output_image : String) (load_offset : Nat) (P : List Nat)
    (hin : fs input_bin = some P) (ht : load_offset < 2 ^ 64)
    (hs : P.length + 64 < 2 ^ 64) :
    make_arm64_image fs input_bin output_image load_offset =
      ⟨none,
       fsWrite fs output_image
         (headerBytes load_offset (P.length + 64) ++ P),
       ["Created ARM64 Image: " ++ output_image,
        "  Header size: 64 bytes",
        "  Kernel size: " ++ toString P.length ++ " bytes",
        "  Total size: " ++
          toString (headerBytes load_offset (P.length + 64) ++ P).length ++
          " bytes",
        "  Load offset: 0x" ++
          String.mk (Nat.toDigits 16 load_offset)]⟩ := by
  unfold make_arm64_image
  rw [hin]
  simp only
  rw [packHeader_eq load_offset (P.length + 64) ht hs]
  simp only [headerBytes_length, if_pos]

theorem decodeField_append (pre mid post : List Nat) (off len : Nat)
    (hp : pre.length = off) (hm : mid.length = len) :
    decodeField (pre ++ (mid ++ post)) off len = readLE mid := by
  subst hp
  subst hm
  simp [decodeField, List.drop_left, List.take_left]

theorem hdr_text (t s : Nat) (P : List Nat) (ht : t < 2 ^ 64) :
    decodeField (headerBytes t s ++ P) 8 8 = t := by
  have hd : headerBytes t s ++ P =
      (leBytes 4 0x14000010 ++ leBytes 4 0) ++
        (leBytes 8 t ++ (leBytes 8 s ++ (leBytes 8 0 ++ (leBytes 8 0 ++
          (leBytes 8 0 ++ (leBytes 8 0 ++ (leBytes 4 0x644d5241 ++
            ([0, 0, 0, 0] ++ P)))))))) := by
    simp [headerBytes, List.append_assoc]
  rw [hd, decodeField_append _ _ _ _ _ (by simp [leBytes_length])
    (leBytes_length 8 t)]
  exact readLE_leBytes 8 t ht

theorem hdr_size (t s : Nat) (P : List Nat) (hs : s < 2 ^ 64) :
    decodeField (headerBytes t s ++ P) 16 8 = s := by
  have hd : headerBytes t s ++ P =
      (leBytes 4 0x14000010 ++ (leBytes 4 0 ++ leBytes 8 t)) ++
        (leBytes 8 s ++ (leBytes 8 0 ++ (leBytes 8 0 ++
          (leBytes 8 0 ++ (leBytes 8 0 ++ (leBytes 4 0x644d5241 ++
            ([0, 0, 0, 0] ++ P))))))) := by
    simp [headerBytes, List.append_assoc]
  rw [hd, decodeField_append _ _ _ _ _ (by simp [leBytes_length])
    (leBytes_length 8 s)]
  exact readLE_leBytes 8 s hs

theorem hdr_code0 (t s : Nat) (P : List Nat) :
    decodeField (headerBytes t s ++ P) 0 4 = 0x14000010 := by
  have hd : headerBytes t s ++ P =
      ([] : List Nat) ++
        (leBytes 4 0x14000010 ++ (leBytes 4 0 ++ (leBytes 8 t ++
          (leBytes 8 s ++ (leBytes 8 0 ++ (leBytes 8 0 ++
            (leBytes 8 0 ++ (leBytes 8 0 ++ (leBytes 4 0x644d5241 ++
              ([0, 0, 0, 0] ++ P)))))))))) := by
    simp [headerBytes, List.append_assoc]
  rw [hd, decodeField_append _ _ _ 0 4 (by simp) (leBytes_length 4 _)]
  exact readLE_leBytes 4 _ (by norm_num)

theorem hdr_code1 (t s : Nat) (P : List Nat) :
    decodeField (headerBytes t s ++ P) 4 4 = 0 := by
  have hd : headerBytes t s ++ P =
      leBytes 4 0x14000010 ++
        (leBytes 4 0 ++ (leBytes 8 t ++ (leBytes 8 s ++ (leBytes 8 0 ++
          (leBytes 8 0 ++ (leBytes 8 0 ++ (leBytes 8 0 ++
            (leBytes 4 0x644d5241 ++ ([0, 0, 0, 0] ++ P))))))))) := by
    simp [headerBytes, List.append_assoc]
  rw [hd, decodeField_append _ _ _ 4 4 (by simp [leBytes_length])
    (leBytes_length 4 0)]
  exact readLE_leBytes 4 0 (by norm_num)

theorem hdr_flags (t s : Nat) (P : List Nat) :
    decodeField (headerBytes t s ++ P) 24 8 = 0 := by
  have hd : headerBytes t s ++ P =
      (leBytes 4 0x14000010 ++ (leBytes 4 0 ++ (leBytes 8 t ++
        leBytes 8 s))) ++
        (leBytes 8 0 ++ (leBytes 8 0 ++ (leBytes 8 0 ++ (leBytes 8 0 ++
          (leBytes 4 0x644d5241 ++ ([0, 0, 0, 0] ++ P)))))) := by
    simp [headerBytes, List.append_assoc]
  rw [hd, decodeField_append _ _ _ _ _ (by simp [leBytes_length])
    (leBytes_length 8 0)]
  exact readLE_leBytes 8 0 (by norm_num)

theorem hdr_res2 (t s : Nat) (P : List Nat) :
    decodeField (headerBytes t s ++ P) 32 8 = 0 := by
  have hd : headerBytes t s ++ P =
      (leBytes 4 0x14000010 ++ (leBytes 4 0 ++ (leBytes 8 t ++
        (leBytes 8 s ++ leBytes 8 0)))) ++
        (leBytes 8 0 ++ (leBytes 8 0 ++ (leBytes 8 0 ++
          (leBytes 4 0x644d5241 ++ ([0, 0, 0, 0] ++ P))))) := by
    simp [headerBytes, List.append_assoc]
  rw [hd, decodeField_append _ _ _ _ _ (by simp [leBytes_length])
    (leBytes_length 8 0)]
  exact readLE_leBytes 8 0 (by norm_num)

theorem hdr_res3 (t s : Nat) (P : List Nat) :
    decodeField (headerBytes t s ++ P) 40 8 = 0 := by
  have hd : headerBytes t s ++ P =
      (leBytes 4 0x14000010 ++ (leBytes 4 0 ++ (leBytes 8 t ++
        (leBytes 8 s ++ (leBytes 8 0 ++ leBytes 8 0))))) ++
        (leBytes 8 0 ++ (leBytes 8 0 ++
          (leBytes 4 0x644d5241 ++ ([0, 0, 0, 0] ++ P)))) := by
    simp [headerBytes, List.append_assoc]
  rw [hd, decodeField_append _ _ _ _ _ (by simp [leBytes_length])
    (leBytes_length 8 0)]
  exact readLE_leBytes 8 0 (by norm_num)

theorem hdr_res4 (t s : Nat) (P : List Nat) :
    decodeField (headerBytes t s ++ P) 48 8 = 0 := by
  have hd : headerBytes t s ++ P =
      (leBytes 4 0x14000010 ++ (leBytes 4 0 ++ (leBytes 8 t ++
        (leBytes 8 s ++ (leBytes 8 0 ++ (leBytes 8 0 ++
          leBytes 8 0)))))) ++
        (leBytes 8 0 ++ (leBytes 4 0x644d5241 ++ ([0, 0, 0, 0] ++ P))) := by
    simp [headerBytes, List.append_assoc]
  rw [hd, decodeField_append _ _ _ _ _ (by simp [leBytes_length])
    (leBytes_length 8 0)]
  exact readLE_leBytes 8 0 (by norm_num)

theorem hdr_magic (t s : Nat) (P : List Nat) :
    decodeField (headerBytes t s ++ P) 56 4 = 0x644d5241 := by
  have hd : headerBytes t s ++ P =
      (leBytes 4 0x14000010 ++ (leBytes 4 0 ++ (leBytes 8 t ++
        (leBytes 8 s ++ (leBytes 8 0 ++ (leBytes 8 0 ++ (leBytes 8 0 ++
          leBytes 8 0))))))) ++
        (leBytes 4 0x644d5241 ++ ([0, 0, 0, 0] ++ P)) := by
    simp [headerBytes, List.append_assoc]
  rw [hd, decodeField_append _ _ _ _ _ (by simp [leBytes_length])
    (leBytes_length 4 _)]
  exact readLE_leBytes 4 _ (by norm_num)

theorem hdr_pad (t s : Nat) (P : List Nat) :
    ((headerBytes t s ++ P).drop 60).take 4 = [0, 0, 0, 0] := by
  have hd : headerBytes t s ++ P =
      (leBytes 4 0x14000010 ++ (leBytes 4 0 ++ (leBytes 8 t ++
        (leBytes 8 s ++ (leBytes 8 0 ++ (leBytes 8 0 ++ (leBytes 8 0 ++
          (leBytes 8 0 ++ leBytes 4 0x644d5241)))))))) ++
        ([0, 0, 0, 0] ++ P) := by
    simp [headerBytes, List.append_assoc]
  have hp : (leBytes 4 0x14000010 ++ (leBytes 4 0 ++ (leBytes 8 t ++
      (leBytes 8 s ++ (leBytes 8 0 ++ (leBytes 8 0 ++ (leBytes 8 0 ++
        (leBytes 8 0 ++ leBytes 4 0x644d5241)))))))).length = 60 := by
    simp [leBytes_length]
  rw [hd, ← hp, List.drop_left]
  rfl

/-- Example file system used by the concrete witnesses: one input file
`in.bin` holding the two bytes `[7, 7]`, and nothing else. -/
def fsEx : FileSys := fun p => if p = "in.bin" then some [7, 7] else none

/-- C1: for every payload `P` read from `input_bin` (including the empty
one) and every in-range `load_offset`, the run succeeds and writes to
`output_image` exactly a 64-byte header followed by the bytes of `P`
verbatim, so the output's length is `64 + P.length` and its bytes from
position 64 on equal `P`. -/
theorem spec_c1_output_is_header_then_payload (fs : FileSys)
    (input_bin output_image : String) (load_offset : Nat) (P : List Nat)
    (hin : fs input_bin = some P) (ht : load_offset < 2 ^ 64)
    (hs : P.length + 64 < 2 ^ 64) :
    ∃ hdr out,
      (make_arm64_image fs input_bin output_image load_offset).err =
        none ∧
      (make_arm64_image fs input_bin output_image load_offset).fs
        output_image = some out ∧
      hdr.length = 64 ∧ out = hdr ++ P ∧
      out.length = 64 + P.length ∧ out.drop 64 = P := by
  refine ⟨headerBytes load_offset (P.length + 64),
    headerBytes load_offset (P.length + 64) ++ P, ?_, ?_, ?_, rfl, ?_, ?_⟩
  · rw [make_arm64_image_success fs input_bin output_image load_offset P
      hin ht hs]
  · rw [make_arm64_image_success fs input_bin output_image load_offset P
      hin ht hs]
    simp [fsWrite]
  · exact headerBytes_length _ _
  · simp [headerBytes_length]
  · rw [← headerBytes_length load_offset (P.length + 64)]
    exact List.drop_left _ _

theorem spec_c1_witness :
    ∃ hdr out,
      (make_arm64_image fsEx "in.bin" "out.img" 0).err = none ∧
      (make_arm64_image fsEx "in.bin" "out.img" 0).fs "out.img" =
        some out ∧
      hdr.length = 64 ∧ out = hdr ++ [7, 7] ∧
      out.length = 64 + [7, 7].length ∧ out.drop 64 = [7, 7] :=
  spec_c1_output_is_header_then_payload fsEx "in.bin" "out.img" 0 [7, 7]
    rfl (by norm_num) (by norm_num)

/-- C2: for every payload `P` and every in-range `load_offset`, the first
64 bytes of the written output decode (little-endian) to a header whose
`image_size` field (bytes 16-23) equals `64 + P.length` and whose
`text_offset` field (bytes 8-15) equals `load_offset`. -/
theorem spec_c2_size_and_offset_fields (fs : FileSys)
    (input_bin output_image : String) (load_offset : Nat) (P : List Nat)
    (hin : fs input_bin = some P) (ht : load_offset < 2 ^ 64)
    (hs : P.length + 64 < 2 ^ 64) :
    ∃ out,
      (make_arm64_image fs input_bin output_image load_offset).fs
        output_image = some out ∧
      decodeField out 16 8 = 64 + P.length ∧
      decodeField out 8 8 = load_offset := by
  refine ⟨headerBytes load_offset (P.length + 64) ++ P, ?_, ?_, ?_⟩
  · rw [make_arm64_image_success fs input_bin output_image load_offset P
      hin ht hs]
    simp [fsWrite]
  · rw [hdr_size load_offset (P.length + 64) P hs]
    omega
  · exact hdr_text load_offset (P.length + 64) P ht

theorem spec_c2_witness :
    ∃ out,
      (make_arm64_image fsEx "in.bin" "out.img" 0).fs "out.img" =
        some out ∧
      decodeField out 16 8 = 64 + [7, 7].length ∧
      decodeField out 8 8 = 0 :=
  spec_c2_size_and_offset_fields fsEx "in.bin" "out.img" 0 [7, 7]
    rfl (by norm_num) (by norm_num)

/-- C3: in every header produced, all fields other than `text_offset` and
`image_size` are fixed constants independent of the inputs: `code0`
decodes to `0x14000010` (the AArch64 encoding of `b #0x40`, branch
forward 64 bytes past the header), the magic field decodes to
`0x644d5241` ("ARM\x64", the ARM64 Image identifier), and `code1`,
`flags`, the three reserved fields and the 4 pad bytes are all zero. -/
theorem spec_c3_constant_fields (fs : FileSys)
    (input_bin output_image : String) (load_offset : Nat) (P : List Nat)
    (hin : fs input_bin = some P) (ht : load_offset < 2 ^ 64)
    (hs : P.length + 64 < 2 ^ 64) :
    ∃ out,
      (make_arm64_image fs input_bin output_image load_offset).fs
        output_image = some out ∧
      decodeField out 0 4 = 0x14000010 ∧
      decodeField out 4 4 = 0 ∧
      decodeField out 24 8 = 0 ∧
      decodeField out 32 8 = 0 ∧
      decodeField out 40 8 = 0 ∧
      decodeField out 48 8 = 0 ∧
      decodeField out 56 4 = 0x644d5241 ∧
      (out.drop 60).take 4 = [0, 0, 0, 0] := by
  refine ⟨headerBytes load_offset (P.length + 64) ++ P, ?_,
    hdr_code0 _ _ _, hdr_code1 _ _ _, hdr_flags _ _ _, hdr_res2 _ _ _,
    hdr_res3 _ _ _, hdr_res4 _ _ _, hdr_magic _ _ _, hdr_pad _ _ _⟩
  rw [make_arm64_image_success fs input_bin output_image load_offset P
    hin ht hs]
  simp [fsWrite]

theorem spec_c3_witness :
    ∃ out,
      (make_arm64_image fsEx "in.bin" "out.img" 0).fs "out.img" =
        some out ∧
      decodeField out 0 4 = 0x14000010 ∧
      decodeField out 4 4 = 0 ∧
      decodeField out 24 8 = 0 ∧
      decodeField out 32 8 = 0 ∧
      decodeField out 40 8 = 0 ∧
      decodeField out 48 8 = 0 ∧
      decodeField out 56 4 = 0x644d5241 ∧
      (out.drop 60).take 4 = [0, 0, 0, 0] :=
  spec_c3_constant_fields fsEx "in.bin" "out.img" 0 [7, 7]
    rfl (by norm_num) (by norm_num)

/-- C4: whenever the header is packed at all, it is exactly 64 bytes long,
so the `assert len(header) == 64` on line 44 never fails: on no run does
`make_arm64_image` end in an `AssertionError`. -/
theorem spec_c4_assert_unreachable (text_offset image_size : Nat)
    (hdr : List Nat)
    (hp : packHeader 0x14000010 0 text_offset image_size 0 0 0 0
      0x644d5241 = some hdr) :
    hdr.length = 64 ∧
    ∀ (fs : FileSys) (input_bin output_image : String)
      (load_offset : Nat),
      (make_arm64_image fs input_bin output_image load_offset).err ≠
        some "AssertionError" := by
  refine ⟨packHeader_length _ _ _ _ _ _ _ _ _ _ hp, ?_⟩
  intro fs input_bin output_image load_offset
  unfold make_arm64_image
  cases hi : fs input_bin with
  | none => simp
  | some kernel_data =>
    simp only
    cases hh : packHeader 0x14000010 0 load_offset
        (kernel_data.length + 64) 0 0 0 0 0x644d5241 with
    | none => simp
    | some header =>
      have h64 := packHeader_length _ _ _ _ _ _ _ _ _ _ hh
      simp [h64]

theorem spec_c4_witness :
    (headerBytes 0 64).length = 64 ∧
    ∀ (fs : FileSys) (input_bin output_image : String)
      (load_offset : Nat),
      (make_arm64_image fs input_bin output_image load_offset).err ≠
        some "AssertionError" :=
  spec_c4_assert_unreachable 0 64 (headerBytes 0 64)
    (packHeader_eq 0 64 (by norm_num) (by norm_num))

/-- C5: if no file exists at `input_bin`, the run fails with the I/O error
from `open` before any write happens: the file system is completely
unchanged, and in particular if `output_image` did not exist before, it
still does not exist afterwards. -/
theorem spec_c5_missing_input_aborts (fs : FileSys)
    (input_bin output_image : String) (load_offset : Nat)
    (hin : fs input_bin = none) :
    (make_arm64_image fs input_bin output_image load_offset).err =
      some "FileNotFoundError" ∧
    (make_arm64_image fs input_bin output_image load_offset).fs = fs ∧
    (fs output_image = none →
      (make_arm64_image fs input_bin output_image load_offset).fs
        output_image = none) := by
  unfold make_arm64_image
  rw [hin]
  exact ⟨rfl, rfl, fun h => h⟩

theorem spec_c5_witness :
    (make_arm64_image fsEx "missing.bin" "out.img" 0).err =
      some "FileNotFoundError" ∧
    (make_arm64_image fsEx "missing.bin" "out.img" 0).fs = fsEx ∧
    (fsEx "out.img" = none →
      (make_arm64_image fsEx "missing.bin" "out.img" 0).fs "out.img" =
        none) :=
  spec_c5_missing_input_aborts fsEx "missing.bin" "out.img" 0 rfl

/-- C6: invoked with fewer than three `sys.argv` entries (i.e. zero or one
positional arguments after the program name), the process prints the usage
line, exits with status 1, and leaves the file system untouched — the
result does not depend on the file system contents at all. -/
theorem spec_c6_usage_on_missing_args (argv : List String) (fs : FileSys)
    (h : argv.length < 3) :
    (pyMain argv fs).exitCode = 1 ∧
    (pyMain argv fs).stdout =
      ["Usage: " ++ argD argv 0 ++ " <input.bin> <output.Image>"] ∧
    (pyMain argv fs).fs = fs := by
  unfold pyMain
  rw [if_pos h]
  exact ⟨rfl, rfl, rfl⟩

theorem spec_c6_witness :
    (pyMain ["make_image.py"] fsEx).exitCode = 1 ∧
    (pyMain ["make_image.py"] fsEx).stdout =
      ["Usage: " ++ argD ["make_image.py"] 0 ++
        " <input.bin> <output.Image>"] ∧
    (pyMain ["make_image.py"] fsEx).fs = fsEx :=
  spec_c6_usage_on_missing_args ["make_image.py"] fsEx (by norm_num)

/-- C7: the operation is deterministic.  Two runs on file systems holding
byte-identical input contents, with the same `load_offset`, write
byte-identical output files (both equal to the header followed by the
payload), whatever the rest of the file systems and the output paths. -/
theorem spec_c7_deterministic (fs1 fs2 : FileSys) (input_bin o1 o2 : String)
    (load_offset : Nat) (P : List Nat)
    (h1 : fs1 input_bin = some P) (h2 : fs2 input_bin = some P)
    (ht : load_offset < 2 ^ 64) (hs : P.length + 64 < 2 ^ 64) :
    (make_arm64_image fs1 input_bin o1 load_offset).fs o1 =
      (make_arm64_image fs2 input_bin o2 load_offset).fs o2 ∧
    (make_arm64_image fs1 input_bin o1 load_offset).fs o1 =
      some (headerBytes load_offset (P.length + 64) ++ P) := by
  rw [make_arm64_image_success fs1 input_bin o1 load_offset P h1 ht hs,
      make_arm64_image_success fs2 input_bin o2 load_offset P h2 ht hs]
  simp [fsWrite]

theorem spec_c7_witness :
    (make_arm64_image fsEx "in.bin" "out.img" 0).fs "out.img" =
      (make_arm64_image fsEx "in.bin" "other.img" 0).fs "other.img" ∧
    (make_arm64_image fsEx "in.bin" "out.img" 0).fs "out.img" =
      some (headerBytes 0 (([7, 7] : List Nat).length + 64) ++ [7, 7]) := by
  have h := spec_c7_deterministic fsEx fsEx "in.bin" "out.img" "other.img"
    0 [7, 7] rfl rfl (by norm_num) (by norm_num)
  exact ⟨h.1, h.2⟩

/-- C8 (amended): on success the program prints five lines, in order:
output path creation, header size (64), kernel (payload) size, total
output size, and the load offset used (in hexadecimal). -/
theorem spec_c8_five_lines (fs : FileSys) (input_bin output_image : String)
    (load_offset : Nat) (P : List Nat) (hin : fs input_bin = some P)
    (ht : load_offset < 2 ^ 64) (hs : P.length + 64 < 2 ^ 64) :
    (make_arm64_image fs input_bin output_image load_offset).stdout =
      ["Created ARM64 Image: " ++ output_image,
       "  Header size: 64 bytes",
       "  Kernel size: " ++ toString P.length ++ " bytes",
       "  Total size: " ++ toString (64 + P.length) ++ " bytes",
       "  Load offset: 0x" ++
         String.mk (Nat.toDigits 16 load_offset)] := by
  rw [make_arm64_image_success fs input_bin output_image load_offset P
    hin ht hs]
  have hl : (headerBytes load_offset (P.length + 64) ++ P).length =
      64 + P.length := by
    simp [headerBytes_length]
  simp [hl]

/-- C8 counterexample: on a successful concrete run the program's standard
output has five lines, not four. -/
theorem spec_c8_counterexample :
    ((make_arm64_image fsEx "in.bin" "out.img" 0).stdout).length ≠ 4 := by
  decide

theorem spec_c8_witness :
    (make_arm64_image fsEx "in.bin" "out.img" 0).stdout =
      ["Created ARM64 Image: " ++ "out.img",
       "  Header size: 64 bytes",
       "  Kernel size: " ++ toString ([7, 7] : List Nat).length ++ " bytes",
       "  Total size: " ++ toString (64 + ([7, 7] : List Nat).length) ++
         " bytes",
       "  Load offset: 0x" ++ String.mk (Nat.toDigits 16 0)] :=
  spec_c8_five_lines fsEx "in.bin" "out.img" 0 [7, 7] rfl (by norm_num)
    (by norm_num)

/-- C9 (amended): the source contains no explicit upper-bound check on
`load_offset`, but oversized values are not silently permitted: for any
`load_offset ≥ 2^64` the packing step itself raises `struct.error`, the
build aborts, and nothing is written. -/
theorem spec_c9_oversized_offset_raises (fs : FileSys)
    (input_bin output_image : String) (load_offset : Nat) (P : List Nat)
    (hin : fs input_bin = some P) (ht : 2 ^ 64 ≤ load_offset) :
    (make_arm64_image fs input_bin output_image load_offset).err =
      some "struct.error" ∧
    (make_arm64_image fs input_bin output_image load_offset).fs = fs := by
  have hnt : ¬ load_offset < 2 ^ (8 * 8) := by
    have h88 : (2 : Nat) ^ (8 * 8) = 2 ^ 64 := by norm_num
    rw [h88]
    omega
  have e0 : packLE 4 0x14000010 = some (leBytes 4 0x14000010) := rfl
  have e1 : packLE 4 0 = some (leBytes 4 0) := rfl
  have e2 : packLE 8 load_offset = none := by
    unfold packLE
    rw [if_neg hnt]
  have hp : packHeader 0x14000010 0 load_offset (P.length + 64) 0 0 0 0
      0x644d5241 = none := by
    simp [packHeader, e0, e1, e2]
  unfold make_arm64_image
  rw [hin]
  simp only
  rw [hp]
  exact ⟨rfl, rfl⟩

/-- C9 counterexample: at `load_offset = 2^64` (one past the largest value
the 8-byte `text_offset` field can hold) the build does not complete: it
raises `struct.error` and writes nothing. -/
theorem spec_c9_counterexample :
    (make_arm64_image fsEx "in.bin" "out.img" (2 ^ 64)).err =
      some "struct.error" ∧
    (make_arm64_image fsEx "in.bin" "out.img" (2 ^ 64)).fs "out.img" =
      none := by
  exact ⟨rfl, rfl⟩

theorem spec_c9_witness :
    (make_arm64_image fsEx "in.bin" "out.img" (2 ^ 64)).err =
      some "struct.error" ∧
    (make_arm64_image fsEx "in.bin" "out.img" (2 ^ 64)).fs = fsEx :=
  spec_c9_oversized_offset_raises fsEx "in.bin" "out.img" (2 ^ 64) [7, 7]
    rfl (le_refl _)

/-- C10: the command line passes only `sys.argv[1]` and `sys.argv[2]` to
`make_arm64_image` — further arguments are ignored (replacing them changes
nothing) — and `load_offset` always takes its default 0, so on success the
written header's `text_offset` field decodes to 0. -/
theorem spec_c10_cli_defaults_offset (a0 a1 a2 : String)
    (rest rest2 : List String) (fs : FileSys) (P : List Nat)
    (hin : fs a1 = some P) (hs : P.length + 64 < 2 ^ 64) :
    pyMain (a0 :: a1 :: a2 :: rest) fs =
      pyMain (a0 :: a1 :: a2 :: rest2) fs ∧
    (pyMain (a0 :: a1 :: a2 :: rest) fs).exitCode = 0 ∧
    ∃ out,
      (pyMain (a0 :: a1 :: a2 :: rest) fs).fs a2 = some out ∧
      decodeField out 8 8 = 0 := by
  have hlen : ¬ (a0 :: a1 :: a2 :: rest).length < 3 := by
    simp
  have hlen2 : ¬ (a0 :: a1 :: a2 :: rest2).length < 3 := by
    simp
  have hrun := make_arm64_image_success fs a1 a2 0 P hin (by norm_num) hs
  have ha1 : argD (a0 :: a1 :: a2 :: rest) 1 = a1 := rfl
  have ha2 : argD (a0 :: a1 :: a2 :: rest) 2 = a2 := rfl
  have hb1 : argD (a0 :: a1 :: a2 :: rest2) 1 = a1 := rfl
  have hb2 : argD (a0 :: a1 :: a2 :: rest2) 2 = a2 := rfl
  unfold pyMain
  rw [if_neg hlen, if_neg hlen2, ha1, ha2, hb1, hb2, hrun]
  refine ⟨rfl, rfl, headerBytes 0 (P.length + 64) ++ P, ?_, ?_⟩
  · simp [fsWrite]
  · exact hdr_text 0 (P.length + 64) P (by norm_num)

theorem spec_c10_witness :
    pyMain ("make_image.py" :: "in.bin" :: "out.img" :: ["extra"]) fsEx =
      pyMain ("make_image.py" :: "in.bin" :: "out.img" :: []) fsEx ∧
    (pyMain ("make_image.py" :: "in.bin" :: "out.img" :: ["extra"])
      fsEx).exitCode = 0 ∧
    ∃ out,
      (pyMain ("make_image.py" :: "in.bin" :: "out.img" :: ["extra"])
        fsEx).fs "out.img" = some out ∧
      decodeField out 8 8 = 0 :=
  spec_c10_cli_defaults_offset "make_image.py" "in.bin" "out.img"
    ["extra"] [] fsEx [7, 7] rfl (by norm_num)
